import Mathlib

/-!
Verification of the virtrigaud libvirt provider entrypoint
(cmd/provider-libvirt/main.go) and of the spec-level contracts of the
controller, task tracker and provider server, as a shallow embedding in Lean.
-/

namespace Virtrigaud

/-! ## Log levels (main.go getLogLevel) -/

/-- The slog levels used by the program. -/
inductive LogLevel where
  | debug
  | info
  | warn
  | error
  deriving DecidableEq, Repr

/-- Embedding of getLogLevel from main.go: reads the LOG_LEVEL environment
variable (none models an unset variable) and switches on its value;
debug, warn and error map to their levels, everything else to info. -/
def getLogLevel (logLevelEnv : Option String) : LogLevel :=
  if logLevelEnv = some "debug" then LogLevel.debug
  else if logLevelEnv = some "warn" then LogLevel.warn
  else if logLevelEnv = some "error" then LogLevel.error
  else LogLevel.info

/-! ## Log handler selection (main.go lines 53-63) -/

/-- The two slog handler kinds the program can construct. -/
inductive HandlerKind where
  | json
  | text
  deriving DecidableEq, Repr

/-- Embedding of the handler selection in main.go: the JSON handler is used
exactly when the LOG_FORMAT environment variable equals json, the text
handler otherwise (none models an unset variable). -/
def chooseHandler (logFormatEnv : Option String) : HandlerKind :=
  if logFormatEnv = some "json" then HandlerKind.json else HandlerKind.text

/-! ## Advertised capabilities (main.go lines 98-101) -/

/-- The capability tokens main.go logs for the libvirt provider at startup. -/
def libvirtAdvertisedCapabilities : List String :=
  ["core", "snapshots", "linked-clones", "online-reconfigure", "qemu-guest-agent"]

/-! ## HTTP health endpoints (main.go lines 106-114) -/

/-- An HTTP response: status code and body. -/
structure HTTPResponse where
  status : Nat
  body : String
  deriving DecidableEq, Repr

/-- Health state of the process dependencies named by the spec (store
connectivity and provider reachability). The readyz handler in main.go
consults no such state; the type exists so that claims relating the
response to dependency health can be stated. -/
structure DepHealth where
  storeConnected : Bool
  providerReachable : Bool
  deriving DecidableEq, Repr

/-- Embedding of the readyz handler from main.go: it unconditionally writes
HTTP 200 with body ready for every request. The dependency-health argument
is explicit so claims about it can be stated; the source handler reads no
dependency state. -/
def readyzHandler (_deps : DepHealth) : HTTPResponse :=
  { status := 200, body := "ready" }

/-- Embedding of the healthz handler from main.go: unconditionally HTTP 200
with body ok. -/
def healthzHandler : HTTPResponse :=
  { status := 200, body := "ok" }

/-! ## Event-trace model of main (main.go lines 39-147) -/

/-- gRPC health serving status values. -/
inductive ServingStatus where
  | serving
  | notServing
  deriving DecidableEq, Repr

/-- The observable effectful steps main.go performs, in program order. -/
inductive Event where
  | printVersion (msg : String)
  | exitProcess (code : Nat)
  | parseFlags
  | createLogger (h : HandlerKind) (lvl : LogLevel)
  | createGRPCServer
  | registerProviderService
  | registerHealthService
  | setServingStatus (service : String) (st : ServingStatus)
  | listen (port : Nat)
  | logError (msg : String)
  | logInfo (msg : String)
  | createHTTPServer (port : Nat)
  | serveGRPC
  | serveHTTP
  | waitForSignal
  | gracefulStopGRPC
  | shutdownHTTP
  deriving DecidableEq, Repr

/-- Inputs that determine main.go's control flow: the command-line arguments
(args models os.Args with the program name stripped, so args.head? is
os.Args index 1), the LOG_LEVEL and LOG_FORMAT environment variables, the
values of the port and health-port flags (none models a flag not given, so
the flag package supplies the declared default), whether the TCP listen on
the gRPC port succeeds, and the version string. -/
structure MainInput where
  args : List String
  logLevelEnv : Option String
  logFormatEnv : Option String
  portFlag : Option Nat
  healthPortFlag : Option Nat
  listenOk : Bool
  version : String
  deriving Repr

/-- Embedding of main from main.go as the trace of events it performs.
The version branch (lines 41-44) prints and exits before flag parsing;
otherwise flags are parsed with defaults 9443 and 8080, the logger is
built from LOG_FORMAT and LOG_LEVEL, the gRPC server, provider service and
health service are set up, the empty-name health status is set to SERVING,
and the TCP listener is opened; on listen failure the process logs the
error and exits with code 1, and on success it starts the HTTP health
server and both serve loops, then waits for a signal and shuts down. -/
def mainTrace (inp : MainInput) : List Event :=
  if inp.args.head? = some "--version" then
    [Event.printVersion ("virtrigaud-provider-libvirt " ++ inp.version),
     Event.exitProcess 0]
  else
    let port := inp.portFlag.getD 9443
    let healthPort := inp.healthPortFlag.getD 8080
    let setup : List Event :=
      [Event.parseFlags,
       Event.createLogger (chooseHandler inp.logFormatEnv) (getLogLevel inp.logLevelEnv),
       Event.createGRPCServer,
       Event.registerProviderService,
       Event.registerHealthService,
       Event.setServingStatus "" ServingStatus.serving,
       Event.listen port]
    if inp.listenOk then
      setup ++
      [Event.logInfo "Starting Libvirt provider server",
       Event.createHTTPServer healthPort,
       Event.logInfo "Starting HTTP health server",
       Event.serveGRPC,
       Event.serveHTTP,
       Event.waitForSignal,
       Event.logInfo "Shutting down gRPC server...",
       Event.gracefulStopGRPC,
       Event.logInfo "Shutting down HTTP health server...",
       Event.shutdownHTTP]
    else
      setup ++
      [Event.logError "Failed to listen",
       Event.exitProcess 1]

/-- The gRPC health status recorded for a service after a list of events has
run: the last setServingStatus for that service, none if there was none. -/
def healthStatusAfter (events : List Event) (service : String) : Option ServingStatus :=
  events.foldl
    (fun acc e =>
      match e with
      | Event.setServingStatus s st => if s = service then some st else acc
      | _ => acc)
    none

/-! ## Spec-modelled controller and provider-protocol pieces

The Reconciliation Controller, Task Tracker and Provider Server bodies are
not under src (only the libvirt provider entrypoint is); they are modelled
from the spec as the rules require. -/

/-- The desired power-state variants of the data model. -/
inductive PowerState where
  | on
  | off
  | offGraceful
  | suspended
  deriving DecidableEq, Repr

/-- The power operation the controller asks the provider to perform. -/
inductive PowerOp where
  | powerOn
  | powerOffHard
  | powerOffGraceful
  | suspend
  deriving DecidableEq, Repr

/-- Modelled from the spec: the Reconciliation Controller's capability gating
for power operations (the controller source is not under src). Section 4.1
step 4 and the Graceful-to-hard fallback property of section 8: for a
desired state OffGraceful the controller issues a guest-cooperative
power-off when the bound provider's capability set contains guest-agent,
and otherwise deterministically substitutes a hard power-off. -/
def planPowerOp (desired : PowerState) (caps : List String) : PowerOp :=
  match desired with
  | PowerState.on => PowerOp.powerOn
  | PowerState.off => PowerOp.powerOffHard
  | PowerState.offGraceful =>
      if "guest-agent" ∈ caps then PowerOp.powerOffGraceful else PowerOp.powerOffHard
  | PowerState.suspended => PowerOp.suspend

/-- A task operation function, identified by the backend side effect it
performs when invoked (one entry is appended to the tracker's effect log
per invocation). -/
structure OperationFn where
  effectId : String
  deriving DecidableEq, Repr

/-- Modelled from the spec: the Task Tracker registry state (the tracker
source is not under src). entries maps idempotency keys to handles,
nextHandle is the next fresh handle, and effects logs every backend side
effect performed by an invoked operation function. -/
structure Tracker where
  entries : List (String × Nat)
  nextHandle : Nat
  effects : List String
  deriving DecidableEq, Repr

/-- The tracker with no registered keys and no side effects performed. -/
def Tracker.empty : Tracker :=
  { entries := [], nextHandle := 0, effects := [] }

/-- Modelled from the spec: Register(key, operationFn) of the Task Tracker
(section 4.4; the tracker source is not under src). If the key is already
registered, the existing handle is returned and the operation function is
not invoked; otherwise a fresh handle is recorded and the operation runs,
logging its backend side effect. The returned Bool reports whether the
operation function was invoked. -/
def Tracker.register (t : Tracker) (key : String) (fn : OperationFn) :
    Nat × Tracker × Bool :=
  match t.entries.lookup key with
  | some h => (h, t, false)
  | none =>
      (t.nextHandle,
       { entries := (key, t.nextHandle) :: t.entries,
         nextHandle := t.nextHandle + 1,
         effects := t.effects ++ [fn.effectId] },
       true)

/-- The provider protocol's error taxonomy (section 7). -/
inductive ErrorKind where
  | notFound
  | alreadyExists
  | unavailable
  | invalidArgument
  | internal
  | canceled
  | unimplemented
  deriving DecidableEq, Repr

/-- Task phases of the data model (section 3). -/
inductive TaskPhase where
  | pending
  | running
  | succeeded
  | failed (e : ErrorKind)
  | canceledPhase
  deriving DecidableEq, Repr

/-- Modelled from the spec: the backend-native delete call (no backend source
is under src). The backend holds a set of VM references; deleting a present
VM removes it, deleting an absent VM reports NotFound. -/
def backendDelete (backendVMs : List String) (vmRef : String) :
    Except ErrorKind (List String) :=
  if vmRef ∈ backendVMs then Except.ok (backendVMs.erase vmRef)
  else Except.error ErrorKind.notFound

/-- Modelled from the spec: the Provider Server's Delete handler (sections
4.2 and 7; the server source is not under src). Delete must reach terminal
Succeeded if the target is already absent: NotFound from the backend is
treated as success, every other backend error fails the task. -/
def serverDelete (backendVMs : List String) (vmRef : String) :
    TaskPhase × List String :=
  match backendDelete backendVMs vmRef with
  | Except.ok rest => (TaskPhase.succeeded, rest)
  | Except.error ErrorKind.notFound => (TaskPhase.succeeded, backendVMs)
  | Except.error e => (TaskPhase.failed e, backendVMs)

/-- Lifecycle phases of a VM resource (section 3). -/
inductive VMStatusPhase where
  | pending
  | provisioning
  | running
  | stopped
  | deleting
  | deleted
  | failedPhase
  deriving DecidableEq, Repr

/-- Modelled from the spec: how the Controller records the outcome of a
delete task (sections 3 and 8; the controller source is not under src).
A Succeeded delete task moves the resource to Deleted with no error
condition; a Failed task records the error; a non-terminal task leaves the
resource Deleting. -/
def controllerDeleteResult (phase : TaskPhase) : VMStatusPhase × Option ErrorKind :=
  match phase with
  | TaskPhase.succeeded => (VMStatusPhase.deleted, none)
  | TaskPhase.failed e => (VMStatusPhase.failedPhase, some e)
  | _ => (VMStatusPhase.deleting, none)

/-! ## Structural lemmas about the main trace -/

/-- With a version flag the trace is just the print and the exit. -/
theorem mainTrace_version (inp : MainInput)
    (hv : inp.args.head? = some "--version") :
    mainTrace inp =
      [Event.printVersion ("virtrigaud-provider-libvirt " ++ inp.version),
       Event.exitProcess 0] := by
  simp [mainTrace, hv]

/-- Without a version flag and with a successful listen, the trace runs the
full setup and both serve loops. -/
theorem mainTrace_listen_ok (inp : MainInput)
    (hv : ¬ inp.args.head? = some "--version") (hl : inp.listenOk = true) :
    mainTrace inp =
      [Event.parseFlags,
       Event.createLogger (chooseHandler inp.logFormatEnv) (getLogLevel inp.logLevelEnv),
       Event.createGRPCServer,
       Event.registerProviderService,
       Event.registerHealthService,
       Event.setServingStatus "" ServingStatus.serving,
       Event.listen (inp.portFlag.getD 9443),
       Event.logInfo "Starting Libvirt provider server",
       Event.createHTTPServer (inp.healthPortFlag.getD 8080),
       Event.logInfo "Starting HTTP health server",
       Event.serveGRPC,
       Event.serveHTTP,
       Event.waitForSignal,
       Event.logInfo "Shutting down gRPC server...",
       Event.gracefulStopGRPC,
       Event.logInfo "Shutting down HTTP health server...",
       Event.shutdownHTTP] := by
  simp [mainTrace, hv, hl]

/-- Without a version flag and with a failed listen, the trace runs the setup,
logs the listen error and exits with code 1. -/
theorem mainTrace_listen_fail (inp : MainInput)
    (hv : ¬ inp.args.head? = some "--version") (hl : inp.listenOk = false) :
    mainTrace inp =
      [Event.parseFlags,
       Event.createLogger (chooseHandler inp.logFormatEnv) (getLogLevel inp.logLevelEnv),
       Event.createGRPCServer,
       Event.registerProviderService,
       Event.registerHealthService,
       Event.setServingStatus "" ServingStatus.serving,
       Event.listen (inp.portFlag.getD 9443),
       Event.logError "Failed to listen",
       Event.exitProcess 1] := by
  simp [mainTrace, hv, hl]

/-! ## Claim theorems -/

/-- C1 counterexample: the claim says guest-cooperative shutdown support is
advertised under the exact token guest-agent, but the capability list
main.go advertises does not contain that token. -/
theorem guest_agent_token_not_advertised :
    "guest-agent" ∉ libvirtAdvertisedCapabilities := by
  decide

/-- C1 (amended): the libvirt provider advertises its guest-cooperative
shutdown support under the token qemu-guest-agent, not under the spec
vocabulary token guest-agent that the controller's capability gating
checks; the other advertised tokens are core, snapshots, linked-clones and
online-reconfigure. -/
theorem libvirt_advertised_capability_tokens :
    "qemu-guest-agent" ∈ libvirtAdvertisedCapabilities ∧
    "guest-agent" ∉ libvirtAdvertisedCapabilities ∧
    libvirtAdvertisedCapabilities =
      ["core", "snapshots", "linked-clones", "online-reconfigure",
       "qemu-guest-agent"] := by
  refine ⟨by decide, by decide, rfl⟩

/-- C3 counterexample: the claim says the readyz endpoint reports ready only
when the dependencies are healthy; the handler reports ready even when
both dependencies are unhealthy. -/
theorem readyz_claim_false :
    ¬ (∀ deps : DepHealth, readyzHandler deps = { status := 200, body := "ready" } →
        deps.storeConnected = true ∧ deps.providerReachable = true) := by
  intro h
  have hc := h { storeConnected := false, providerReachable := false } rfl
  simp at hc

/-- C3 (amended): the readyz endpoint unconditionally reports ready (HTTP 200
with body ready) for every request, regardless of dependency health. -/
theorem readyz_always_ready (deps : DepHealth) :
    readyzHandler deps = { status := 200, body := "ready" } :=
  rfl

/-- C6: getLogLevel returns debug exactly when LOG_LEVEL is debug, warn
exactly when it is warn, error exactly when it is error, and info for
every other value, including unset, empty and the explicit value info. -/
theorem getLogLevel_cases (env : Option String) :
    (getLogLevel env = LogLevel.debug ↔ env = some "debug") ∧
    (getLogLevel env = LogLevel.warn ↔ env = some "warn") ∧
    (getLogLevel env = LogLevel.error ↔ env = some "error") ∧
    (getLogLevel env = LogLevel.info ↔
      (env ≠ some "debug" ∧ env ≠ some "warn" ∧ env ≠ some "error")) ∧
    getLogLevel none = LogLevel.info ∧
    getLogLevel (some "") = LogLevel.info ∧
    getLogLevel (some "info") = LogLevel.info := by
  refine ⟨?_, ?_, ?_, ?_, by decide, by decide, by decide⟩ <;>
    (unfold getLogLevel; split_ifs <;> simp_all)

/-- C6 witness: the level cases evaluated at the concrete value debug. -/
theorem getLogLevel_cases_witness :
    getLogLevel (some "debug") = LogLevel.debug :=
  (getLogLevel_cases (some "debug")).1.mpr rfl

/-- C2: for a desired power state OffGraceful against a provider whose
advertised capability set lacks guest-agent, the controller plan is a hard
power-off, deterministically, and never the guest-cooperative variant. -/
theorem offGraceful_falls_back_to_hard (caps : List String)
    (h : "guest-agent" ∉ caps) :
    planPowerOp PowerState.offGraceful caps = PowerOp.powerOffHard ∧
    planPowerOp PowerState.offGraceful caps ≠ PowerOp.powerOffGraceful := by
  simp [planPowerOp, h]

/-- C2 witness: the fallback at a concrete capability set lacking
guest-agent. -/
theorem offGraceful_falls_back_to_hard_witness :
    planPowerOp PowerState.offGraceful ["snapshots", "qemu-guest-agent"] =
      PowerOp.powerOffHard :=
  (offGraceful_falls_back_to_hard ["snapshots", "qemu-guest-agent"]
    (by decide)).1

/-- C4: registering an already-registered key returns the existing handle,
does not invoke the new operation function, leaves the tracker unchanged,
and a Create issued twice under one key performs exactly one backend side
effect. -/
theorem register_same_key_returns_existing_handle (t : Tracker) (key : String)
    (f g : OperationFn) :
    ((t.register key f).2.1.register key g).1 = (t.register key f).1 ∧
    ((t.register key f).2.1.register key g).2.1 = (t.register key f).2.1 ∧
    ((t.register key f).2.1.register key g).2.2 = false ∧
    ((Tracker.empty.register key f).2.1.register key g).2.1.effects =
      [f.effectId] := by
  have hsame : ∀ u : Tracker, (u.register key f).2.1.register key g =
      ((u.register key f).1, (u.register key f).2.1, false) := by
    intro u
    cases hk : u.entries.lookup key with
    | some h => simp [Tracker.register, hk]
    | none => simp [Tracker.register, hk, List.lookup]
  refine ⟨by rw [hsame t], by rw [hsame t], by rw [hsame t], ?_⟩
  rw [hsame Tracker.empty]
  simp [Tracker.register, Tracker.empty, List.lookup]

/-- C5: deleting a VM whose backend object is already absent yields a task in
terminal phase Succeeded, leaves the backend unchanged, and the controller
records the resource as Deleted with no error condition. -/
theorem delete_absent_vm_succeeds (backendVMs : List String) (vmRef : String)
    (h : vmRef ∉ backendVMs) :
    (serverDelete backendVMs vmRef).1 = TaskPhase.succeeded ∧
    (serverDelete backendVMs vmRef).2 = backendVMs ∧
    controllerDeleteResult (serverDelete backendVMs vmRef).1 =
      (VMStatusPhase.deleted, none) := by
  simp [serverDelete, backendDelete, h, controllerDeleteResult]

/-- C5 witness: deleting from an empty backend at a concrete reference. -/
theorem delete_absent_vm_succeeds_witness :
    (serverDelete [] "vm-1").1 = TaskPhase.succeeded ∧
    (serverDelete [] "vm-1").2 = [] ∧
    controllerDeleteResult (serverDelete [] "vm-1").1 =
      (VMStatusPhase.deleted, none) :=
  delete_absent_vm_succeeds [] "vm-1" (by decide)

/-- C7: with no command-line flags the gRPC port used for the listen is 9443
and the HTTP health server uses port 8080 (created only when the listen
succeeded); the JSON handler is chosen exactly when LOG_FORMAT is json and
the text handler for every other value, and the logger built in the trace
uses exactly that choice. -/
theorem default_ports_and_log_format (inp : MainInput)
    (hv : ¬ inp.args.head? = some "--version")
    (hp : inp.portFlag = none) (hh : inp.healthPortFlag = none) :
    Event.listen 9443 ∈ mainTrace inp ∧
    (inp.listenOk = true → Event.createHTTPServer 8080 ∈ mainTrace inp) ∧
    Event.createLogger (chooseHandler inp.logFormatEnv)
      (getLogLevel inp.logLevelEnv) ∈ mainTrace inp ∧
    (∀ env, chooseHandler env = HandlerKind.json ↔ env = some "json") ∧
    (∀ env, env ≠ some "json" → chooseHandler env = HandlerKind.text) := by
  refine ⟨?_, ?_, ?_, ?_, ?_⟩
  · cases hl : inp.listenOk
    · rw [mainTrace_listen_fail inp hv hl]; simp [hp]
    · rw [mainTrace_listen_ok inp hv hl]; simp [hp]
  · intro hl
    rw [mainTrace_listen_ok inp hv hl]
    simp [hh]
  · cases hl : inp.listenOk
    · rw [mainTrace_listen_fail inp hv hl]; simp
    · rw [mainTrace_listen_ok inp hv hl]; simp
  · intro env
    unfold chooseHandler
    split_ifs <;> simp_all
  · intro env henv
    simp [chooseHandler, henv]

/-- C7 witness: the defaults at a concrete flagless, listen-failing input. -/
theorem default_ports_and_log_format_witness :
    Event.listen 9443 ∈
      mainTrace ⟨[], none, none, none, none, false, "0.1.0"⟩ :=
  (default_ports_and_log_format ⟨[], none, none, none, none, false, "0.1.0"⟩
    (by decide) rfl rfl).1

/-- C8: with first argument --version the program prints the version banner
and exits with status 0, without parsing flags, creating the gRPC server,
listening, creating the HTTP server, or serving. -/
theorem version_flag_short_circuits (inp : MainInput)
    (h : inp.args.head? = some "--version") :
    mainTrace inp =
      [Event.printVersion ("virtrigaud-provider-libvirt " ++ inp.version),
       Event.exitProcess 0] ∧
    Event.parseFlags ∉ mainTrace inp ∧
    Event.createGRPCServer ∉ mainTrace inp ∧
    (∀ p, Event.listen p ∉ mainTrace inp) ∧
    (∀ p, Event.createHTTPServer p ∉ mainTrace inp) ∧
    Event.serveGRPC ∉ mainTrace inp ∧
    Event.serveHTTP ∉ mainTrace inp := by
  rw [mainTrace_version inp h]
  simp

/-- C8 witness: the version path at a concrete argument vector. -/
theorem version_flag_short_circuits_witness :
    mainTrace ⟨["--version"], none, none, none, none, true, "0.1.0"⟩ =
      [Event.printVersion ("virtrigaud-provider-libvirt " ++ "0.1.0"),
       Event.exitProcess 0] :=
  (version_flag_short_circuits ⟨["--version"], none, none, none, none,
    true, "0.1.0"⟩ rfl).1

/-- C10: when the TCP listen fails, the process logs the listen error and its
last step is an exit with status 1, and it never serves gRPC, never
creates the HTTP health server and never serves HTTP. -/
theorem listen_failure_aborts (inp : MainInput)
    (hv : ¬ inp.args.head? = some "--version")
    (hl : inp.listenOk = false) :
    Event.logError "Failed to listen" ∈ mainTrace inp ∧
    (mainTrace inp).getLast? = some (Event.exitProcess 1) ∧
    Event.serveGRPC ∉ mainTrace inp ∧
    Event.serveHTTP ∉ mainTrace inp ∧
    (∀ p, Event.createHTTPServer p ∉ mainTrace inp) := by
  rw [mainTrace_listen_fail inp hv hl]
  refine ⟨by simp, rfl, by simp, by simp, by simp⟩

/-- C10 witness: the failing-listen path at a concrete input. -/
theorem listen_failure_aborts_witness :
    Event.logError "Failed to listen" ∈
      mainTrace ⟨[], none, none, none, none, false, "0.1.0"⟩ :=
  (listen_failure_aborts ⟨[], none, none, none, none, false, "0.1.0"⟩
    (by decide) rfl).1

/-- Every setServingStatus event in any main trace carries the SERVING
status. -/
theorem mainTrace_setServing_only_serving (inp : MainInput) (s : String)
    (st : ServingStatus) (h : Event.setServingStatus s st ∈ mainTrace inp) :
    st = ServingStatus.serving := by
  by_cases hv : inp.args.head? = some "--version"
  · rw [mainTrace_version inp hv] at h
    simp at h
  · cases hl : inp.listenOk
    · rw [mainTrace_listen_fail inp hv hl] at h
      simp at h
      exact h.2
    · rw [mainTrace_listen_ok inp hv hl] at h
      simp at h
      exact h.2

/-- Folding the health-status update over events none of whose status updates
for the given service set NOT_SERVING never produces NOT_SERVING, from any
accumulator that is not NOT_SERVING. -/
theorem healthFold_ne_notServing (service : String) (events : List Event)
    (acc : Option ServingStatus)
    (hacc : acc ≠ some ServingStatus.notServing)
    (hev : ∀ st, Event.setServingStatus service st ∈ events →
      st = ServingStatus.serving) :
    events.foldl
      (fun acc e =>
        match e with
        | Event.setServingStatus s st => if s = service then some st else acc
        | _ => acc)
      acc ≠ some ServingStatus.notServing := by
  induction events generalizing acc with
  | nil => simpa using hacc
  | cons e rest ih =>
    simp only [List.foldl_cons]
    apply ih
    · cases e with
      | setServingStatus s st =>
        by_cases hs : s = service
        · have hst : st = ServingStatus.serving := by
            apply hev st
            rw [hs]
            exact List.mem_cons_self _ _
          simp [hs, hst]
        · simpa [hs] using hacc
      | printVersion msg => simpa using hacc
      | exitProcess code => simpa using hacc
      | parseFlags => simpa using hacc
      | createLogger hk lvl => simpa using hacc
      | createGRPCServer => simpa using hacc
      | registerProviderService => simpa using hacc
      | registerHealthService => simpa using hacc
      | listen port => simpa using hacc
      | logError msg => simpa using hacc
      | logInfo msg => simpa using hacc
      | createHTTPServer port => simpa using hacc
      | serveGRPC => simpa using hacc
      | serveHTTP => simpa using hacc
      | waitForSignal => simpa using hacc
      | gracefulStopGRPC => simpa using hacc
      | shutdownHTTP => simpa using hacc
    · intro st hst
      exact hev st (List.mem_cons_of_mem _ hst)

/-- C9: over any prefix of the main trace the recorded gRPC health status of
the empty service name is never NOT_SERVING, and whenever the trace
contains a listen event the single SERVING status update precedes it,
no other status update occurring anywhere else in the trace. -/
theorem grpc_health_serving_invariant (inp : MainInput) :
    (∀ pre, pre <+: mainTrace inp →
      healthStatusAfter pre "" ≠ some ServingStatus.notServing) ∧
    (∀ p, Event.listen p ∈ mainTrace inp →
      ∃ l₁ l₂, mainTrace inp =
          l₁ ++ Event.setServingStatus "" ServingStatus.serving ::
            Event.listen p :: l₂ ∧
        ∀ s st, Event.setServingStatus s st ∉ l₁ ∧
          Event.setServingStatus s st ∉ l₂) := by
  constructor
  · intro pre hpre
    exact healthFold_ne_notServing "" pre none (by simp)
      (fun st hst =>
        mainTrace_setServing_only_serving inp "" st (hpre.subset hst))
  · intro p hp
    by_cases hv : inp.args.head? = some "--version"
    · rw [mainTrace_version inp hv] at hp
      simp at hp
    · cases hl : inp.listenOk
      · rw [mainTrace_listen_fail inp hv hl] at hp
        simp at hp
        refine ⟨[Event.parseFlags,
          Event.createLogger (chooseHandler inp.logFormatEnv)
            (getLogLevel inp.logLevelEnv),
          Event.createGRPCServer,
          Event.registerProviderService,
          Event.registerHealthService],
          [Event.logError "Failed to listen", Event.exitProcess 1], ?_, ?_⟩
        · rw [mainTrace_listen_fail inp hv hl, hp]
          rfl
        · intro s st
          constructor <;> simp
      · rw [mainTrace_listen_ok inp hv hl] at hp
        simp at hp
        refine ⟨[Event.parseFlags,
          Event.createLogger (chooseHandler inp.logFormatEnv)
            (getLogLevel inp.logLevelEnv),
          Event.createGRPCServer,
          Event.registerProviderService,
          Event.registerHealthService],
          [Event.logInfo "Starting Libvirt provider server",
           Event.createHTTPServer (inp.healthPortFlag.getD 8080),
           Event.logInfo "Starting HTTP health server",
           Event.serveGRPC,
           Event.serveHTTP,
           Event.waitForSignal,
           Event.logInfo "Shutting down gRPC server...",
           Event.gracefulStopGRPC,
           Event.logInfo "Shutting down HTTP health server...",
           Event.shutdownHTTP], ?_, ?_⟩
        · rw [mainTrace_listen_ok inp hv hl, hp]
          rfl
        · intro s st
          constructor <;> simp

/-- C9 witness: the ordering at a concrete input whose trace contains a
listen event. -/
theorem grpc_health_serving_invariant_witness :
    ∃ l₁ l₂, mainTrace ⟨[], none, none, none, none, true, "0.1.0"⟩ =
        l₁ ++ Event.setServingStatus "" ServingStatus.serving ::
          Event.listen 9443 :: l₂ ∧
      ∀ s st, Event.setServingStatus s st ∉ l₁ ∧
        Event.setServingStatus s st ∉ l₂ :=
  (grpc_health_serving_invariant
      ⟨[], none, none, none, none, true, "0.1.0"⟩).2 9443
    (by rw [mainTrace_listen_ok _ (by decide) rfl]; simp)

end Virtrigaud
